import Mathlib

/-!
Shallow embedding of `src/tauri_audit_gui/src-tauri/src/main.rs`.

The repository exposes two Tauri commands:

* `read_tail_chunk (path, offset)`: opens the file, asks the metadata for its
  length, returns `("", file_len)` when `offset >= file_len`, otherwise seeks
  to `offset` and reads the remaining bytes with `read_to_string`, which
  fails on bytes that are not valid UTF-8.

* `generate_pdf_report (path, payload)`: registers the built-in Helvetica
  font (fallible), lays out one fixed A4 page of absolutely positioned text
  lines with a descending cursor `y`, then creates the destination file and
  saves the document through a `BufWriter`.

Modelling choices:

* A file system is a map `String → Option contents`; `none` means the path
  cannot be opened.  Metadata and seek failures on a handle that did open are
  folded into open failure: the source maps each of them to the same
  `Err(e.to_string())` shape and they concern the same inaccessible file.
* Rust strings are represented by their UTF-8 byte lists (`List Nat`, each
  entry < 256): `read_to_string` is reading plus a UTF-8 validity check, and
  a valid byte list determines the decoded string uniquely.
* Every `f64` constant in the renderer (285.0, 10.0, 12.0, 8.0, 6.0, 4.0,
  4.5, the 20.0 bottom margin, the font sizes) is a multiple of 0.5 of tiny
  magnitude, so all cursor subtractions and comparisons are exact in `f64`;
  the embedding counts half-millimetres in `Int` (285.0 mm = 570).
* The external PDF library and the file-creation/save calls are oracles:
  three Booleans say whether `add_builtin_font`, `File::create` and
  `doc.save` succeed, placed exactly where the source propagates their
  errors.  A successful save stores the laid-out document at the path; a
  failed save after a successful `File::create` leaves a created/truncated
  file with indeterminate partial contents.
-/

namespace Vigil

/-- One UTF-8 continuation byte: `0x80 ≤ b < 0xC0`. -/
def utf8Cont (b : Nat) : Bool := 0x80 ≤ b && b < 0xC0

/-- UTF-8 validity of a byte list, as Rust's `read_to_string` accepts it
(rejecting overlong forms, surrogates and code points above U+10FFFF). -/
def utf8Valid : List Nat → Bool
  | [] => true
  | b :: rest =>
    if b < 0x80 then utf8Valid rest
    else if b < 0xC2 then false
    else if b < 0xE0 then
      match rest with
      | b1 :: r => utf8Cont b1 && utf8Valid r
      | [] => false
    else if b < 0xF0 then
      match rest with
      | b1 :: b2 :: r =>
        (if b == 0xE0 then 0xA0 ≤ b1 && b1 < 0xC0
         else if b == 0xED then 0x80 ≤ b1 && b1 < 0xA0
         else utf8Cont b1) && utf8Cont b2 && utf8Valid r
      | _ => false
    else if b < 0xF5 then
      match rest with
      | b1 :: b2 :: b3 :: r =>
        (if b == 0xF0 then 0x90 ≤ b1 && b1 < 0xC0
         else if b == 0xF4 then 0x80 ≤ b1 && b1 < 0x90
         else utf8Cont b1) && utf8Cont b2 && utf8Cont b3 && utf8Valid r
      | _ => false
    else false

/-- The `read_tail_chunk` command over a file system `fs`: open, metadata
length, the `offset >= file_len` early return with `("", file_len)`, then
seek to `offset` and `read_to_string` of the remaining bytes. -/
def read_tail_chunk (fs : String → Option (List Nat)) (path : String) (offset : Nat) :
    Except String (List Nat × Nat) :=
  match fs path with
  | none => Except.error "open failed"
  | some content =>
    let file_len := content.length
    if file_len ≤ offset then Except.ok ([], file_len)
    else
      let buf := content.drop offset
      if utf8Valid buf then Except.ok (buf, file_len)
      else Except.error "stream did not contain valid UTF-8"

/-- One event row of the payload; all five fields are opaque display
strings. -/
structure ReportRow where
  timestamp : String
  action : String
  category : String
  user : String
  status : String

/-- The `ReportPayload` handed to `generate_pdf_report`.  The `u32` counts
are only displayed, never computed with, so `Nat` represents them. -/
structure ReportPayload where
  total : Nat
  success : Nat
  failure : Nat
  top_categories : List (String × Nat)
  top_users : List (String × Nat)
  top_actions : List (String × Nat)
  rows : List ReportRow

/-- One `use_text` call: the drawn string, the font size in points, and the
x/y position in half-millimetres. -/
structure TextOp where
  text : String
  size : Nat
  x : Int
  y : Int

/-- `format!("\x7b\x7d: \x7b\x7d", k, v)` for a ranked entry. -/
def entryText (kv : String × Nat) : String := kv.1 ++ ": " ++ toString kv.2

/-- The pipe-delimited event-row line. -/
def rowText (r : ReportRow) : String :=
  r.timestamp ++ " | " ++ r.action ++ " | " ++ r.category ++ " | " ++ r.user ++ " | " ++ r.status

/-- A ranked-section loop body: each entry drawn at 10 pt, x = 24 mm, and the
cursor moves down one 6 mm line per entry. -/
def emitEntries (y : Int) : List (String × Nat) → List TextOp
  | [] => []
  | kv :: rest => ⟨entryText kv, 10, 48, y⟩ :: emitEntries (y - 12) rest

/-- The event-row loop: draw at 8 pt, x = 20 mm, then `y -= 4.5` and
`if y < 20.0 break`.  The test follows the draw, so it stops the next row,
never the one just drawn. -/
def emitRows (y : Int) : List ReportRow → List TextOp
  | [] => []
  | r :: rest =>
    if y - 9 < 40 then [⟨rowText r, 8, 40, y⟩]
    else ⟨rowText r, 8, 40, y⟩ :: emitRows (y - 9) rest

/-- Every `use_text` call of `generate_pdf_report` in order, the cursor
threaded as in the source (half-millimetre units; a section loop advances the
cursor once per emitted entry, a net `12 * length`). -/
def layoutOps (now : String) (p : ReportPayload) : List TextOp :=
  let cats := p.top_categories.take 5
  let users := p.top_users.take 5
  let acts := p.top_actions.take 5
  let y3 : Int := 570 - 20 - 24 - 20
  let y4 := y3 - 16
  let y5 := y4 - 12 * (cats.length : Int) - 8
  let y6 := y5 - 16
  let y7 := y6 - 12 * (users.length : Int) - 8
  let y8 := y7 - 16
  let y9 := y8 - 12 * (acts.length : Int) - 12
  let y10 := y9 - 16
  [⟨"Audit Report", 18, 40, 570⟩,
   ⟨"Generated " ++ now, 10, 40, 570 - 20⟩,
   ⟨"Total: " ++ toString p.total ++ "  Success: " ++ toString p.success ++
      "  Failure: " ++ toString p.failure, 11, 40, 570 - 20 - 24⟩,
   ⟨"Top Categories", 12, 40, y3⟩] ++
  emitEntries y4 cats ++
  [⟨"Top Users", 12, 40, y5⟩] ++
  emitEntries y6 users ++
  [⟨"Top Actions", 12, 40, y7⟩] ++
  emitEntries y8 acts ++
  [⟨"Events (first 100)", 12, 40, y9⟩] ++
  emitRows y10 (p.rows.take 100)

/-- What a destination path holds after a render touched it: a completely
saved document, or a file `File::create` produced whose `doc.save` then
failed — created/truncated with indeterminate partial contents. -/
inductive FileData where
  | document (ops : List TextOp)
  | halfWritten

/-- The `generate_pdf_report` command, its three fallible external calls as
oracles in source order: `add_builtin_font`, `File::create`, `doc.save`.
Returns the call's result together with the file system afterwards.  All
drawing happens before `File::create`; `File::create` truncates or creates
the destination before `doc.save` runs. -/
def generate_pdf_report (fontOk createOk saveOk : Bool) (now : String)
    (fs : String → Option FileData) (path : String) (p : ReportPayload) :
    Except String Unit × (String → Option FileData) :=
  if !fontOk then (Except.error "font registration failed", fs)
  else
    let ops := layoutOps now p
    if !createOk then (Except.error "could not create file", fs)
    else if !saveOk then
      (Except.error "save failed", fun q => if q = path then some FileData.halfWritten else fs q)
    else (Except.ok (), fun q => if q = path then some (FileData.document ops) else fs q)

/-- Event-row `use_text` calls are the 8 pt ones; no other line uses 8 pt. -/
def isRowOp (op : TextOp) : Bool := op.size == 8

/-- Ranked-entry `use_text` calls are the 10 pt ones at x = 24 mm; the only
other 10 pt line (the timestamp) sits at x = 20 mm. -/
def isEntryOp (op : TextOp) : Bool := op.size == 10 && op.x == 48

/-! ## Concrete file systems used by the witnesses -/

/-- A file system with one empty file. -/
def fsEmptyLog : String → Option (List Nat) :=
  fun p => if p = "audit.log" then some [] else none

/-- A file system whose one file is `"h"` with `"é"` (2 UTF-8 bytes)
appended. -/
def fsAppendLog : String → Option (List Nat) :=
  fun p => if p = "audit.log" then some ([0x68] ++ [0xC3, 0xA9]) else none

/-- The same file seen by an unrelated second file system. -/
def fsAppendLogAlt : String → Option (List Nat) :=
  fun _ => some [0x68, 0xC3, 0xA9]

/-! ## TailReader claims -/

/-- C1: whenever the path opens (contents `content`) and the offset is at
least the file's length — strictly greater, or 0 on an empty file —
`read_tail_chunk` returns the successful pair `("", length)`, no error. -/
theorem read_tail_nothing_new (fs : String → Option (List Nat)) (path : String)
    (content : List Nat) (offset : Nat) (hopen : fs path = some content)
    (hoff : content.length ≤ offset) :
    read_tail_chunk fs path offset = Except.ok ([], content.length) := by
  simp [read_tail_chunk, hopen, hoff]

/-- C1 witness: an empty file read at offset 5 yields `("", 0)`. -/
theorem read_tail_nothing_new_witness :
    read_tail_chunk fsEmptyLog "audit.log" 5 = Except.ok ([], 0) :=
  read_tail_nothing_new fsEmptyLog "audit.log" [] 5 (by decide) (by decide)

/-- C2: if the file now holds `content ++ t` where `content.length = L0` was
the previously returned length and `t` is valid UTF-8, then
`read_tail_chunk path L0` returns exactly `(t, L0 + t.length)`. -/
theorem read_tail_append (fs : String → Option (List Nat)) (path : String)
    (content t : List Nat) (L0 : Nat) (hopen : fs path = some (content ++ t))
    (hL0 : content.length = L0) (ht : utf8Valid t = true) :
    read_tail_chunk fs path L0 = Except.ok (t, L0 + t.length) := by
  subst hL0
  match t with
  | [] => simp [read_tail_chunk, hopen]
  | b :: bs =>
    have hlen : ¬ ((content ++ b :: bs).length ≤ content.length) := by
      simp only [List.length_append, List.length_cons]
      omega
    simp only [read_tail_chunk, hopen, if_neg hlen, List.drop_left, ht, if_pos,
      List.length_append]
    rw [if_neg (by simp only [List.length_append, List.length_cons]; omega)]

/-- C2 witness: after appending the two bytes of `"é"` to a 1-byte file,
reading from offset 1 yields those bytes and the length 3. -/
theorem read_tail_append_witness :
    read_tail_chunk fsAppendLog "audit.log" 1 = Except.ok ([0xC3, 0xA9], 3) :=
  read_tail_append fsAppendLog "audit.log" [0x68] [0xC3, 0xA9] 1 (by decide) rfl (by decide)

/-- C6: if the path opens, the offset is strictly below the length, and the
bytes from the offset to end-of-file are not valid UTF-8 (for instance the
offset splits a multi-byte character), `read_tail_chunk` is a hard error —
never a lossily decoded success. -/
theorem read_tail_invalid_utf8 (fs : String → Option (List Nat)) (path : String)
    (content : List Nat) (offset : Nat) (hopen : fs path = some content)
    (hlt : offset < content.length) (hbad : utf8Valid (content.drop offset) = false) :
    ∃ e, read_tail_chunk fs path offset = Except.error e := by
  refine ⟨"stream did not contain valid UTF-8", ?_⟩
  have hnle : ¬ (content.length ≤ offset) := by omega
  simp [read_tail_chunk, hopen, hnle, hbad]

/-- C6 witness: reading the file `"é"` (bytes `C3 A9`) from offset 1 splits
the character and errors. -/
theorem read_tail_invalid_utf8_witness :
    ∃ e, read_tail_chunk fsAppendLog "audit.log" 2 = Except.error e :=
  read_tail_invalid_utf8 fsAppendLog "audit.log" [0x68, 0xC3, 0xA9] 2 (by decide)
    (by decide) (by decide)

/-- C7: `read_tail_chunk` is a pure function of the opened path's contents
and the offset: two calls that see the same contents at the path — in
particular two successive calls on an unchanged file — return identical
output. -/
theorem read_tail_deterministic (fs1 fs2 : String → Option (List Nat)) (path : String)
    (offset : Nat) (h : fs1 path = fs2 path) :
    read_tail_chunk fs1 path offset = read_tail_chunk fs2 path offset := by
  unfold read_tail_chunk
  rw [h]

/-- C7 witness: two file systems agreeing on the path give identical reads. -/
theorem read_tail_deterministic_witness :
    read_tail_chunk fsAppendLog "audit.log" 1 = read_tail_chunk fsAppendLogAlt "audit.log" 1 :=
  read_tail_deterministic fsAppendLog fsAppendLogAlt "audit.log" 1 (by decide)

/-- C8: a path that cannot be opened makes `read_tail_chunk` fail with the
propagated open error, at every offset. -/
theorem read_tail_open_failure (fs : String → Option (List Nat)) (path : String)
    (offset : Nat) (h : fs path = none) :
    ∃ e, read_tail_chunk fs path offset = Except.error e := by
  refine ⟨"open failed", ?_⟩
  simp [read_tail_chunk, h]

/-- C8 witness: `read_tail_chunk "missing.log" 0` on a file system without
that file is an error. -/
theorem read_tail_open_failure_witness :
    ∃ e, read_tail_chunk (fun _ => none) "missing.log" 0 = Except.error e :=
  read_tail_open_failure (fun _ => none) "missing.log" 0 rfl

/-! ## Renderer helper lemmas -/

theorem emitEntries_filter_row (l : List (String × Nat)) :
    ∀ y : Int, (emitEntries y l).filter isRowOp = [] := by
  induction l with
  | nil => intro y; rfl
  | cons kv rest ih => intro y; simp [emitEntries, isRowOp, ih]

theorem emitEntries_filter_entry (l : List (String × Nat)) :
    ∀ y : Int, (emitEntries y l).filter isEntryOp = emitEntries y l := by
  induction l with
  | nil => intro y; rfl
  | cons kv rest ih => intro y; simp [emitEntries, isEntryOp, ih]

theorem emitEntries_map_text (l : List (String × Nat)) :
    ∀ y : Int, (emitEntries y l).map TextOp.text = l.map entryText := by
  induction l with
  | nil => intro y; rfl
  | cons kv rest ih => intro y; simp [emitEntries, ih]

theorem emitRows_filter_row (l : List ReportRow) :
    ∀ y : Int, (emitRows y l).filter isRowOp = emitRows y l := by
  induction l with
  | nil => intro y; rfl
  | cons r rest ih =>
    intro y
    by_cases h : y - 9 < 40 <;> simp [emitRows, isRowOp, h, ih]

theorem emitRows_filter_entry (l : List ReportRow) :
    ∀ y : Int, (emitRows y l).filter isEntryOp = [] := by
  induction l with
  | nil => intro y; rfl
  | cons r rest ih =>
    intro y
    by_cases h : y - 9 < 40 <;> simp [emitRows, isEntryOp, h, ih]

theorem emitRows_map_text (l : List ReportRow) :
    ∀ y : Int, ∃ n, n ≤ l.length ∧
      (emitRows y l).map TextOp.text = (l.map rowText).take n := by
  induction l with
  | nil => intro y; exact ⟨0, Nat.le_refl 0, rfl⟩
  | cons r rest ih =>
    intro y
    by_cases h : y - 9 < 40
    · exact ⟨1, by simp, by simp [emitRows, h]⟩
    · obtain ⟨n, hn, he⟩ := ih (y - 9)
      exact ⟨n + 1, by simp; omega, by simp [emitRows, h, he]⟩

theorem emitRows_y_ge (l : List ReportRow) :
    ∀ y : Int, 40 ≤ y → ∀ op ∈ emitRows y l, 40 ≤ op.y := by
  induction l with
  | nil => intro y _ op hop; simp [emitRows] at hop
  | cons r rest ih =>
    intro y hy op hop
    by_cases h : y - 9 < 40
    · simp [emitRows, h] at hop
      subst hop
      exact hy
    · simp only [emitRows, if_neg h, List.mem_cons] at hop
      rcases hop with rfl | hop
      · exact hy
      · exact ih (y - 9) (by omega) op hop

theorem emitRows_budget (l : List ReportRow) :
    ∀ (n : Nat) (y : Int), y ≤ 48 + 9 * n → (emitRows y l).length ≤ n + 1 := by
  induction l with
  | nil => intro n y _; simp [emitRows]
  | cons r rest ih =>
    intro n y h
    by_cases hb : y - 9 < 40
    · simp [emitRows, hb]
    · match n with
      | 0 => omega
      | n + 1 =>
        have hrec := ih n (y - 9) (by push_cast at h ⊢; omega)
        simp only [emitRows, if_neg hb, List.length_cons]
        omega

theorem emitRows_take_eq (l : List ReportRow) :
    ∀ (k n : Nat) (y : Int), y ≤ 48 + 9 * n → n + 1 ≤ k →
      emitRows y (l.take k) = emitRows y l := by
  induction l with
  | nil => intro k n y _ _; simp
  | cons r rest ih =>
    intro k n y h hk
    cases k with
    | zero => omega
    | succ k =>
      simp only [List.take_succ_cons]
      by_cases hb : y - 9 < 40
      · simp [emitRows, hb]
      · match n with
        | 0 => omega
        | n + 1 =>
          have hrec := ih k n (y - 9) (by push_cast at h ⊢; omega) (by omega)
          simp only [emitRows, if_neg hb, hrec]

theorem emitRows_dropped (l : List ReportRow) :
    ∀ y : Int, (emitRows y l).length < l.length →
      ∃ last, (emitRows y l).getLast? = some last ∧ last.y - 9 < 40 := by
  induction l with
  | nil => intro y h; simp [emitRows] at h
  | cons r rest ih =>
    intro y h
    by_cases hb : y - 9 < 40
    · exact ⟨⟨rowText r, 8, 40, y⟩, by simp [emitRows, hb], hb⟩
    · simp only [emitRows, if_neg hb, List.length_cons] at h
      have h' : (emitRows (y - 9) rest).length < rest.length := by
        omega
      obtain ⟨last, hl, hy⟩ := ih (y - 9) h'
      refine ⟨last, ?_, hy⟩
      rcases hrec : emitRows (y - 9) rest with _ | ⟨c, l'⟩
      · rw [hrec] at hl
        simp at hl
      · rw [emitRows, if_neg hb, hrec]
        rw [hrec] at hl
        rw [List.getLast?_cons_cons]
        exact hl

/-- The event-row lines of the page are one `emitRows` run whose start
cursor lies between 234 (all three sections full) and 414 (all three
empty). -/
theorem layoutOps_filter_row (now : String) (p : ReportPayload) :
    ∃ y : Int, 234 ≤ y ∧ y ≤ 414 ∧
      (layoutOps now p).filter isRowOp = emitRows y (p.rows.take 100) := by
  simp [layoutOps, List.filter_append, emitEntries_filter_row, emitRows_filter_row, isRowOp]
  refine ⟨_, ?_, ?_, rfl⟩ <;> omega

/-! ## ReportRenderer claims -/

/-- C3: for every summary the page carries exactly the first at-most-5
entries of each ranked sequence, in section order, each formatted as
`label: count`, and its event rows are drawn from the first at most 100
rows, whatever the input lengths. -/
theorem layout_caps (now : String) (p : ReportPayload) :
    ((layoutOps now p).filter isEntryOp).map TextOp.text =
      (p.top_categories.take 5).map entryText ++ (p.top_users.take 5).map entryText ++
        (p.top_actions.take 5).map entryText ∧
    ∃ n, n ≤ 100 ∧ ((layoutOps now p).filter isRowOp).map TextOp.text =
      (p.rows.map rowText).take n := by
  constructor
  · simp [layoutOps, List.filter_append, emitEntries_filter_entry, emitRows_filter_entry,
      emitEntries_map_text, isEntryOp]
  · obtain ⟨y, hy1, hy2, hrw⟩ := layoutOps_filter_row now p
    obtain ⟨n, hn, he⟩ := emitRows_map_text (p.rows.take 100) y
    have hn100 : n ≤ 100 := by
      rw [List.length_take] at hn
      omega
    refine ⟨n, hn100, ?_⟩
    rw [hrw, he, ← List.map_take, List.take_take, Nat.min_eq_left hn100, List.map_take]

/-- C4: event rows always stay above the fixed 20 mm bottom margin; when
rows are dropped although fewer than `min 100 |rows|` were emitted, the
loop stopped exactly because the next row would cross the margin (the last
drawn row's cursor minus one 4.5 mm step is below 20 mm); and no payload,
however large, makes the command fail — the page is simply shorter. -/
theorem layout_truncation (now : String) (p : ReportPayload) :
    (∀ op ∈ (layoutOps now p).filter isRowOp, 40 ≤ op.y) ∧
    (((layoutOps now p).filter isRowOp).length < min 100 p.rows.length →
      ∃ last, ((layoutOps now p).filter isRowOp).getLast? = some last ∧ last.y - 9 < 40) ∧
    (∀ (fs : String → Option FileData) (path : String),
      (generate_pdf_report true true true now fs path p).1 = Except.ok ()) := by
  obtain ⟨y, hy1, hy2, hrw⟩ := layoutOps_filter_row now p
  refine ⟨?_, ?_, ?_⟩
  · rw [hrw]
    exact emitRows_y_ge (p.rows.take 100) y (by omega)
  · rw [hrw]
    intro h
    apply emitRows_dropped (p.rows.take 100) y
    rw [List.length_take]
    exact h
  · intro fs path
    rfl

/-- C9: the vertical budget binds before the row cap ever can: no payload
gets more than 42 event rows onto the page, and below the worst-case start
cursor (414 half-mm, all sections empty) the `take 100` in the source is
inert — the row loop emits the same lines with or without it. -/
theorem layout_row_budget (now : String) (p : ReportPayload) :
    ((layoutOps now p).filter isRowOp).length ≤ 42 ∧
    ∀ (y : Int) (rs : List ReportRow), y ≤ 414 →
      emitRows y (rs.take 100) = emitRows y rs := by
  obtain ⟨y, hy1, hy2, hrw⟩ := layoutOps_filter_row now p
  constructor
  · rw [hrw]
    have h := emitRows_budget (p.rows.take 100) 41 y (by omega)
    omega
  · intro y' rs hy'
    exact emitRows_take_eq rs 100 41 y' (by omega) (by omega)

/-- C10: when font registration fails — an `EncodingFailure` raised before
any drawing — the command reports the error and the whole file system, the
destination path included, is exactly as before: `File::create` only runs
after the font step and every `use_text` call succeeded. -/
theorem render_font_failure_frame (createOk saveOk : Bool) (now : String)
    (fs : String → Option FileData) (path : String) (p : ReportPayload) :
    (generate_pdf_report false createOk saveOk now fs path p).2 = fs ∧
    ∃ e, (generate_pdf_report false createOk saveOk now fs path p).1 = Except.error e :=
  ⟨rfl, "font registration failed", rfl⟩

/-- The payload of the end-to-end failure scenario: nothing to report. -/
def emptyPayload : ReportPayload :=
  { total := 0, success := 0, failure := 0, top_categories := [], top_users := [],
    top_actions := [], rows := [] }

/-- C5 counterexample: with font registration and `File::create` succeeding
but `doc.save` failing, the command reports a failure and yet the
destination path now holds a created, half-written file — the source calls
`File::create` (which creates or truncates) before `doc.save`, so a save
failure does leave a partial file. -/
theorem render_partial_file_counterexample :
    (generate_pdf_report true true false "2026-01-01T00:00:00+00:00" (fun _ => none)
        "report.pdf" emptyPayload).1.isOk = false ∧
    (generate_pdf_report true true false "2026-01-01T00:00:00+00:00" (fun _ => none)
        "report.pdf" emptyPayload).2 "report.pdf" = some FileData.halfWritten := by
  exact ⟨rfl, by simp [generate_pdf_report]⟩

/-- C5 as amended: a failure reported before the destination is created —
font registration or `File::create` itself failing — leaves the file system
untouched, so no document, partial or otherwise, appears; only a `doc.save`
failure after a successful `File::create` can leave a half-written file. -/
theorem render_no_partial_before_create (fontOk createOk saveOk : Bool) (now : String)
    (fs : String → Option FileData) (path : String) (p : ReportPayload)
    (h : fontOk = false ∨ createOk = false) :
    (generate_pdf_report fontOk createOk saveOk now fs path p).2 = fs ∧
    (generate_pdf_report fontOk createOk saveOk now fs path p).1.isOk = false := by
  rcases h with h | h
  · subst h
    exact ⟨rfl, rfl⟩
  · subst h
    cases fontOk
    · exact ⟨rfl, rfl⟩
    · exact ⟨rfl, rfl⟩

/-- C5 amended-claim witness: a font-registration failure at a concrete
input leaves the (empty) file system as it was. -/
theorem render_no_partial_before_create_witness :
    (generate_pdf_report false true true "2026-01-01T00:00:00+00:00" (fun _ => none)
        "report.pdf" emptyPayload).2 = (fun _ => none) ∧
    (generate_pdf_report false true true "2026-01-01T00:00:00+00:00" (fun _ => none)
        "report.pdf" emptyPayload).1.isOk = false :=
  render_no_partial_before_create false true true "2026-01-01T00:00:00+00:00" (fun _ => none)
    "report.pdf" emptyPayload (Or.inl rfl)

end Vigil
